import Mathlib

/-!
Verification development for the Chimera Protocol memory/LLM-routing core.

The Python sources under `api/` are shallowly embedded: Python strings are
modelled as `List Char`, Python floats occurring in scores as `ℚ`, Python
exceptions as an explicit `PyExn` error type threaded through `Except`, and
Django database rows as Lean structures carried in explicit lists.  Each
definition mirrors one function of the source (`llm_router.py`,
`memory_service.py`, `memory_extractor.py`, `views_memory.py`, `models.py`).
-/

/-- A Python string, modelled as its list of characters. -/
abbrev PyStr := List Char

/-- Python `str.lower()` (ASCII model). -/
def pyLower (s : PyStr) : PyStr := s.map Char.toLower

/-- Python truthiness of an optional string: `None` and `""` are falsy. -/
def pyTruthy : Option PyStr → Bool
  | none => false
  | some s => !s.isEmpty

/-- Python `sub in s` substring test. -/
def strContains (s sub : PyStr) : Bool :=
  match s with
  | [] => sub.isEmpty
  | c :: tail => sub.isPrefixOf (c :: tail) || strContains tail sub

/-- Fuelled worker for `pyReplace`; the fuel is the length of the subject
string, which bounds the number of steps since every step consumes at least
one character of it. -/
def pyReplaceAux (pat rep : PyStr) : Nat → PyStr → PyStr
  | 0, s => s
  | _ + 1, [] => []
  | fuel + 1, c :: cs =>
    if !pat.isEmpty && pat.isPrefixOf (c :: cs) then
      rep ++ pyReplaceAux pat rep fuel (List.drop pat.length (c :: cs))
    else c :: pyReplaceAux pat rep fuel cs

/-- Python `s.replace(pat, rep)` for a non-empty pattern: replaces every
non-overlapping occurrence, scanning left to right. -/
def pyReplace (s pat rep : PyStr) : PyStr := pyReplaceAux pat rep s.length s

/-- Removal of the characters `.`, `-`, `_`, as done by the chained
`.replace('.', '').replace('-', '').replace('_', '')` in `get_provider`. -/
def stripPunctuation (s : PyStr) : PyStr :=
  s.filter (fun c => !(c = '.' || c = '-' || c = '_'))

/-- The `SUPPORTED_MODELS` dict of `llm_router.py`, in insertion order. -/
def SUPPORTED_MODELS : List (PyStr × PyStr) :=
  [ ("gpt-4".data, "openai".data)
  , ("gpt-4-turbo".data, "openai".data)
  , ("gpt-4o".data, "openai".data)
  , ("gpt-3.5-turbo".data, "openai".data)
  , ("claude-3-opus".data, "anthropic".data)
  , ("claude-3-sonnet".data, "anthropic".data)
  , ("claude-3-haiku".data, "anthropic".data)
  , ("claude-3.5-sonnet".data, "anthropic".data)
  , ("gemini-pro".data, "google".data)
  , ("gemini-1.5-pro".data, "google".data)
  , ("gemini-1.5-flash".data, "google".data)
  , ("gemini-2.0-flash".data, "google".data)
  , ("deepseek-chat".data, "deepseek".data)
  , ("deepseek-coder".data, "deepseek".data)
  , ("llama-3-70b".data, "groq".data)
  , ("llama-3-8b".data, "groq".data)
  , ("mixtral-8x7b".data, "groq".data)
  , ("echo".data, "echo".data)
  , ("local".data, "local".data) ]

/-- Python dict lookup (`k in d` / `d[k]`), first matching key. -/
def dictGet (table : List (PyStr × PyStr)) (k : PyStr) : Option PyStr :=
  match table with
  | [] => none
  | (key, v) :: rest => if key = k then some v else dictGet rest k

/-- The case-insensitive key scan of `normalize_model_name`: return the first
table key whose lowercasing equals the target. -/
def findKeyCI : List (PyStr × PyStr) → PyStr → Option PyStr
  | [], _ => none
  | (key, _) :: rest, target =>
    if pyLower key = target then some key else findKeyCI rest target

/-- `normalize_model_name` of `llm_router.py`: exact table hit, else
case-insensitive table hit (returning the table's spelling), else the
original name unchanged. -/
def normalize_model_name (model_name : PyStr) (provider : PyStr) : PyStr :=
  if (dictGet SUPPORTED_MODELS model_name).isSome then model_name
  else
    match findKeyCI SUPPORTED_MODELS (pyLower model_name) with
    | some key => key
    | none => model_name

/-- The punctuation-normalised scan of `get_provider`: first table entry whose
key, with `.`/`-`/`_` removed and lowercased, equals the target. -/
def findProviderNormalized : List (PyStr × PyStr) → PyStr → Option PyStr
  | [], _ => none
  | (key, prov) :: rest, target =>
    if target = pyLower (stripPunctuation key) then some prov
    else findProviderNormalized rest target

/-- `get_provider` of `llm_router.py`: strip any `model-` occurrences,
lowercase, exact table hit, else punctuation-normalised hit, else `echo`. -/
def get_provider (model_name : PyStr) : PyStr :=
  let clean_name := pyLower (pyReplace model_name ("model-".data) [])
  match dictGet SUPPORTED_MODELS clean_name with
  | some p => p
  | none =>
    let normalized_name := stripPunctuation clean_name
    match findProviderNormalized SUPPORTED_MODELS normalized_name with
    | some p => p
    | none => "echo".data

/-- The registry resolution `resolve(modelIdentifier) → (provider,
canonicalModel)` as performed by `call_llm_with_conversation` (llm_router.py
lines 125-132): provider via `get_provider`, canonical model by stripping the
`model-` occurrences and applying `normalize_model_name`. -/
def resolveModel (model_id : PyStr) : PyStr × PyStr :=
  let provider := get_provider model_id
  let model_name := pyReplace model_id ("model-".data) []
  (provider, normalize_model_name model_name provider)

/-- Every provider value stored in the `SUPPORTED_MODELS` table. -/
def providerValues : List PyStr :=
  ["openai".data, "anthropic".data, "google".data, "deepseek".data,
   "groq".data, "echo".data, "local".data]


/-- A JSON-ish metadata value as stored in Django JSONFields. -/
inductive JVal where
  | s (v : PyStr)
  | b (v : Bool)
  | n (v : Nat)
  | q (v : ℚ)
  | null
deriving DecidableEq, Repr

/-- A row of the `Memory` model (models.py): the fields read or written by the
embedded code paths.  `created_at` is a timestamp, larger meaning newer. -/
structure Memory where
  id : PyStr
  workspace_id : PyStr
  title : PyStr
  content : PyStr
  snippet : PyStr
  tags : List PyStr
  metadata : List (PyStr × JVal)
  version : Nat
  created_at : Nat
deriving DecidableEq, Repr

/-- A word character in the sense of the regex `\w` (ASCII model). -/
def pyIsWordChar (c : Char) : Bool := c.isAlphanum || c = '_'

/-- Accumulator worker for `wordRuns`; `acc` is the current run, reversed. -/
def wordRunsGo : PyStr → PyStr → List PyStr
  | [], acc => if acc.isEmpty then [] else [acc.reverse]
  | c :: cs, acc =>
    if pyIsWordChar c then wordRunsGo cs (c :: acc)
    else if acc.isEmpty then wordRunsGo cs []
    else acc.reverse :: wordRunsGo cs []

/-- `re.findall(r'\b\w+\b', text)`: the maximal runs of word characters. -/
def wordRuns (s : PyStr) : List PyStr := wordRunsGo s []

/-- The stop-word set of `MemoryService._tokenize`. -/
def STOP_WORDS : List PyStr :=
  [ "the", "a", "an", "is", "are", "was", "were", "be", "been",
    "being", "have", "has", "had", "do", "does", "did", "will",
    "would", "could", "should", "may", "might", "must", "shall",
    "can", "to", "of", "in", "for", "on", "with", "at", "by",
    "from", "as", "into", "through", "during", "before", "after",
    "above", "below", "between", "under", "again", "further",
    "then", "once", "here", "there", "when", "where", "why",
    "how", "all", "each", "few", "more", "most", "other", "some",
    "such", "no", "nor", "not", "only", "own", "same", "so",
    "than", "too", "very", "just", "and", "but", "if", "or",
    "because", "until", "while", "this", "that", "these", "those",
    "it", "its", "i", "me", "my", "we", "our", "you", "your",
    "he", "him", "his", "she", "her", "they", "them", "their" ].map String.data

/-- `MemoryService._tokenize`: lowercase, split into word runs, keep tokens of
length > 2 outside the stop-word set, as a set. -/
def MemoryService_tokenize (text : PyStr) : Finset PyStr :=
  ((wordRuns (pyLower text)).filter
    (fun w => w.length > 2 && !(STOP_WORDS.contains w))).toFinset

/-- The token set of a memory's combined `title content` text, as built by
`MemoryService._calculate_score`. -/
def memoryTokens (m : Memory) : Finset PyStr :=
  MemoryService_tokenize (pyLower (m.title ++ " ".data ++ m.content))

/-- `MemoryService._calculate_score`: 0 when the memory has no tokens or the
sets do not intersect, otherwise `(2*titleMatches + contentMatches) /
|queryTokens|` capped at 1.  Floats are modelled as `ℚ`. -/
def MemoryService_calculate_score (query_tokens : Finset PyStr) (m : Memory) : ℚ :=
  let memory_tokens := memoryTokens m
  if memory_tokens = ∅ then 0
  else
    let intersection := query_tokens ∩ memory_tokens
    if intersection = ∅ then 0
    else
      let title_matches : ℚ :=
        ((query_tokens ∩ MemoryService_tokenize (pyLower m.title)).card : ℚ)
      let content_matches : ℚ := (intersection.card : ℚ) - title_matches
      min ((title_matches * 2 + content_matches) / (query_tokens.card : ℚ)) 1

/-- The `Meta.ordering = ['-created_at']` queryset order: newer first. -/
def createdGE (a b : Memory) : Prop := b.created_at ≤ a.created_at

instance : DecidableRel createdGE :=
  fun a b => inferInstanceAs (Decidable (b.created_at ≤ a.created_at))

instance : IsTotal Memory createdGE :=
  ⟨fun a b => (Nat.le_total b.created_at a.created_at)⟩

instance : IsTrans Memory createdGE :=
  ⟨fun _ _ _ h1 h2 => le_trans h2 h1⟩

/-- The key order of `scored_memories.sort(key=lambda x: x[1], reverse=True)`:
descending score.  Insertion sort along it models Python's stable sort. -/
def scoreGE (a b : Memory × ℚ) : Prop := b.2 ≤ a.2

instance : DecidableRel scoreGE :=
  fun a b => inferInstanceAs (Decidable (b.2 ≤ a.2))

/-- One entry of the list returned by `MemoryService.search`. -/
structure SearchResult where
  id : PyStr
  title : PyStr
  content : PyStr
  snippet : PyStr
  score : ℚ
  tags : List PyStr
  workspace_id : PyStr
  created_at : Nat
deriving DecidableEq, Repr

/-- Descending score with score-ties broken by recency, newest first, on the
scored tuples. -/
def scoreThenRecency (a b : Memory × ℚ) : Prop :=
  b.2 < a.2 ∨ (a.2 = b.2 ∧ b.1.created_at ≤ a.1.created_at)

/-- Descending score with score-ties broken by recency, newest first, on the
returned result records. -/
def resultOrder (a b : SearchResult) : Prop :=
  b.score < a.score ∨ (a.score = b.score ∧ b.created_at ≤ a.created_at)

/-- `MemoryService.search`: optional workspace filter, candidate pool of the
100 newest rows (the queryset's `-created_at` order with `[:100]`), empty
query tokenisation short-circuits, keyword scoring keeping positive scores,
Python's stable sort descending by score, then the first `top_k` rows
rendered as result records (content truncated to 500 characters). -/
def searchQuerySet (db : List Memory) (workspace_id : Option PyStr) : List Memory :=
  match workspace_id with
  | some w => db.filter (fun m => m.workspace_id = w)
  | none => db

def MemoryService_search (db : List Memory) (query : PyStr) (top_k : Nat)
    (workspace_id : Option PyStr) : List SearchResult :=
  let memories := (List.insertionSort createdGE (searchQuerySet db workspace_id)).take 100
  if memories.isEmpty then []
  else
    let query_tokens := MemoryService_tokenize (pyLower query)
    if query_tokens = ∅ then []
    else
      let scored_memories :=
        (memories.map (fun m => (m, MemoryService_calculate_score query_tokens m))).filter
          (fun p => decide (0 < p.2))
      let sorted := List.insertionSort scoreGE scored_memories
      (sorted.take top_k).map (fun p =>
        { id := p.1.id, title := p.1.title, content := p.1.content.take 500,
          snippet := p.1.snippet, score := p.2, tags := p.1.tags,
          workspace_id := p.1.workspace_id, created_at := p.1.created_at })


/-- Concrete memory rows for witness instantiations. -/
def demoMemA : Memory :=
  { id := "m1".data, workspace_id := "w".data,
    title := "Dark mode preference".data,
    content := "User prefers dark mode in the editor".data,
    snippet := "User prefers dark mode".data,
    tags := [], metadata := [], version := 1, created_at := 10 }

/-- A concrete tokenised query for witness instantiations. -/
def demoQuery : Finset PyStr := MemoryService_tokenize ("dark mode".data)


/-- A Python exception value. -/
inductive PyExn where
  | importError
  | attributeError
  | fieldError
  | raised (msg : PyStr)
deriving DecidableEq, Repr

/-- A whitespace character in the sense of the regex `\s` (ASCII model:
space, tab, newline, carriage return, vertical tab, form feed). -/
def isPySpace (c : Char) : Bool :=
  c = ' ' || c = '\t' || c = '\n' || c = '\r' || c = Char.ofNat 11 || c = Char.ofNat 12

/-- Python `str.strip()`: drop whitespace from both ends. -/
def pyStrip (s : PyStr) : PyStr :=
  ((s.dropWhile isPySpace).reverse.dropWhile isPySpace).reverse

/-- Python `str.split(sep)` for a single-character separator, keeping empty
pieces. -/
def pySplitChar (sep : Char) : PyStr → List PyStr
  | [] => [[]]
  | c :: cs =>
    if c = sep then [] :: pySplitChar sep cs
    else
      match pySplitChar sep cs with
      | [] => [[c]]
      | w :: ws => (c :: w) :: ws

/-- Accumulator worker for `pySplitWs`; `acc` is the current word, reversed. -/
def pySplitWsGo : PyStr → PyStr → List PyStr
  | [], acc => if acc.isEmpty then [] else [acc.reverse]
  | c :: cs, acc =>
    if isPySpace c then
      if acc.isEmpty then pySplitWsGo cs []
      else acc.reverse :: pySplitWsGo cs []
    else pySplitWsGo cs (c :: acc)

/-- Python `str.split()` with no argument: whitespace-separated words, empty
pieces dropped. -/
def pySplitWs (s : PyStr) : List PyStr := pySplitWsGo s []

/-- Case-insensitive literal match at the start of `s` (the regex engine's
treatment of a literal alternative under `re.IGNORECASE`). -/
def ciStartsWith (a s : PyStr) : Bool := decide (pyLower (s.take a.length) = pyLower a)

/-- Matcher for the trailing `\s+(.+)` of every fact pattern, starting from
whitespace-run length `w` and backtracking `w` downwards: `.` does not match
a newline, so the greedy `\s+` gives characters back until a line character
follows.  Returns the total matched length. -/
def matchTailFrom : Nat → PyStr → Option Nat
  | 0, _ => none
  | w + 1, s =>
    let rest := s.drop (w + 1)
    let d := (rest.takeWhile (fun c => !(c = '\n'))).length
    if d > 0 then some (w + 1 + d) else matchTailFrom w s

/-- Matcher for `\s+(.+)` at the head of `s`. -/
def matchTail (s : PyStr) : Option Nat :=
  matchTailFrom (s.takeWhile isPySpace).length s

/-- Matcher for the remainder `\s+ g₁ \s+ g₂ … \s+(.+)` of a fact pattern:
each `gᵢ` is an ordered alternation of literals, tried left to right with
backtracking into the continuation; the `\s+` separators before literals are
deterministic since no literal starts with whitespace. -/
def matchRest : List (List PyStr) → PyStr → Option Nat
  | [], s => matchTail s
  | g :: gs, s =>
    let w := (s.takeWhile isPySpace).length
    if w = 0 then none
    else
      (g.findSome? (fun a =>
        if ciStartsWith a (s.drop w) then
          (matchRest gs ((s.drop w).drop a.length)).map (fun n => a.length + n)
        else none)).map (fun n => w + n)

/-- Match of a whole fact pattern anchored at the current position; returns
the length of `group(0)`. -/
def patMatchAt (pat : List (List PyStr)) (s : PyStr) : Option Nat :=
  match pat with
  | [] => none
  | g :: gs =>
    g.findSome? (fun a =>
      if ciStartsWith a s then
        (matchRest gs (s.drop a.length)).map (fun n => a.length + n)
      else none)

/-- `re.search(pattern, text, re.IGNORECASE)` as a Boolean: does the pattern
match at some position? -/
def patSearchHit (pat : List (List PyStr)) : PyStr → Bool
  | [] => false
  | c :: cs => (patMatchAt pat (c :: cs)).isSome || patSearchHit pat cs

/-- Fuelled worker for `patFindAll`; continues after each match's end as
`re.finditer` does. -/
def patFindAllAux (pat : List (List PyStr)) : Nat → PyStr → List PyStr
  | 0, _ => []
  | fuel + 1, s =>
    match s with
    | [] => []
    | _ :: cs =>
      match patMatchAt pat s with
      | some n => s.take n :: patFindAllAux pat fuel (s.drop n)
      | none => patFindAllAux pat fuel cs

/-- `re.finditer(pattern, text, re.IGNORECASE)`: the `group(0)` spans of the
non-overlapping matches, left to right. -/
def patFindAll (pat : List (List PyStr)) (s : PyStr) : List PyStr :=
  patFindAllAux pat s.length s

/-- The `FACT_PATTERNS` of `memory_extractor.py`: each regex is a sequence of
literal alternation groups separated by `\s+`, ending in `\s+(.+)`. -/
def FACT_PATTERNS : List (List (List PyStr)) :=
  [ [ ["I", "we", "user", "team"].map String.data,
      ["am", "is", "are"].map String.data ]
  , [ ["I", "we", "user", "team"].map String.data,
      ["prefer", "like", "love", "use", "need"].map String.data ]
  , [ ["my", "our", "the"].map String.data,
      ["name", "email", "phone", "address", "company"].map String.data,
      ["is", "are"].map String.data ]
  , [ ["I", "we"].map String.data,
      ["work", "working", "build", "building", "develop", "developing"].map String.data,
      ["on", "with", "in"].map String.data ] ]

/-- `IMPORTANCE_KEYWORDS['high']`. -/
def IMPORTANCE_HIGH : List PyStr :=
  [ "prefer", "like", "love", "hate", "dislike", "always", "never",
    "important", "critical", "must", "required", "need", "want",
    "remember", "note", "save", "store", "keep in mind" ].map String.data

/-- `IMPORTANCE_KEYWORDS['medium']`. -/
def IMPORTANCE_MEDIUM : List PyStr :=
  [ "usually", "often", "sometimes", "typically", "generally",
    "working on", "building", "creating", "developing",
    "use", "using", "utilize", "employ" ].map String.data

/-- `IMPORTANCE_KEYWORDS['low']` (declared in the source; unused by
`should_save_memory`). -/
def IMPORTANCE_LOW : List PyStr :=
  [ "might", "maybe", "perhaps", "possibly", "could",
    "thinking about", "considering", "exploring" ].map String.data

/-- The explicit save-intent keywords checked first by `should_save_memory`. -/
def SAVE_KEYWORDS : List PyStr :=
  ["remember", "save", "store", "keep", "note"].map String.data

/-- Python `any(k in s for k in kws)`. -/
def containsAny (s : PyStr) (kws : List PyStr) : Bool :=
  kws.any (fun k => strContains s k)

/-- `should_save_memory` of `memory_extractor.py`: ordered rules, first match
wins; returns (should_save, importance). -/
def should_save_memory (user_message llm_reply : PyStr) : Bool × PyStr :=
  if containsAny (pyLower user_message) SAVE_KEYWORDS then (true, "high".data)
  else if containsAny (pyLower user_message) IMPORTANCE_HIGH then (true, "high".data)
  else if containsAny (pyLower user_message) IMPORTANCE_MEDIUM then (true, "medium".data)
  else if FACT_PATTERNS.any (fun pat => patSearchHit pat user_message) then (true, "medium".data)
  else if (pySplitWs user_message).length > 10 then (true, "medium".data)
  else if (pySplitWs user_message).length > 3 then (true, "low".data)
  else (false, "none".data)

/-- One extracted fact candidate. -/
structure ExtractedFact where
  text : PyStr
  type : PyStr
  confidence : PyStr
deriving DecidableEq, Repr

/-- `extract_facts` of `memory_extractor.py`: pattern-matched spans (stripped,
kept above the minimum length) followed by sentences containing a
high-importance keyword. -/
def extract_facts (text : PyStr) : List ExtractedFact :=
  let patternFacts :=
    FACT_PATTERNS.flatMap (fun pat =>
      (patFindAll pat text).filterMap (fun span =>
        let fact_text := pyStrip span
        if fact_text.length > 10 then
          some { text := fact_text, type := "extracted".data,
                 confidence := "medium".data }
        else none))
  let sentenceFacts :=
    (pySplitChar '.' text).filterMap (fun sentence =>
      let sentence := pyStrip sentence
      if sentence.isEmpty then none
      else if containsAny (pyLower sentence) IMPORTANCE_HIGH then
        some { text := sentence, type := "important".data,
               confidence := "high".data }
      else none)
  patternFacts ++ sentenceFacts

/-- `generate_tags` of `memory_extractor.py`: fixed keyword tables in source
order, defaulting to `general`. -/
def generate_tags (text : PyStr) : List PyStr :=
  let text_lower := pyLower text
  let tags :=
    (if containsAny text_lower (["prefer", "like", "love", "favorite"].map String.data)
     then ["preference".data] else []) ++
    (if containsAny text_lower (["building", "working", "developing", "creating"].map String.data)
     then ["project".data] else []) ++
    (if containsAny text_lower (["python", "javascript", "java", "code", "programming"].map String.data)
     then ["programming".data] else []) ++
    (if containsAny text_lower (["design", "ui", "ux", "interface", "layout"].map String.data)
     then ["design".data] else []) ++
    (if containsAny text_lower (["api", "backend", "server", "database"].map String.data)
     then ["backend".data] else []) ++
    (if containsAny text_lower (["frontend", "react", "vue", "angular"].map String.data)
     then ["frontend".data] else []) ++
    (if containsAny text_lower (["team", "colleague", "member", "collaborate"].map String.data)
     then ["team".data] else []) ++
    (if containsAny text_lower (["important", "critical", "must", "required"].map String.data)
     then ["important".data] else [])
  if tags.isEmpty then ["general".data] else tags

/-- `calculate_importance_score` of `memory_extractor.py` (floats as `ℚ`):
base 0.5, +0.1 per present high keyword, +0.2 for an explicit save word,
+0.1 if some fact pattern matches, word-count bonus, capped at 1. -/
def calculate_importance_score (text : PyStr) : ℚ :=
  let text_lower := pyLower text
  let score : ℚ := 1 / 2
  let score := score +
    ((IMPORTANCE_HIGH.filter (fun k => strContains text_lower k)).length : ℚ) * (1 / 10)
  let score := score +
    (if containsAny text_lower (["remember", "save", "important"].map String.data)
     then 2 / 10 else 0)
  let score := score +
    (if FACT_PATTERNS.any (fun pat => patSearchHit pat text) then 1 / 10 else 0)
  let word_count := (pySplitWs text).length
  let score := score +
    (if word_count > 50 then 1 / 10 else if word_count > 20 then 1 / 20 else 0)
  min score 1

/-- The method names defined by `class MemoryService` (memory_service.py);
there is no `store`. -/
def memoryServiceMethods : List PyStr :=
  ["search", "_tokenize", "_calculate_score"].map String.data

/-- The attribute lookup performed by `memory_service.store(...)`: the class
defines no such method, so Python raises `AttributeError` before any call
happens. -/
def memoryServiceCallStore : Except PyExn Unit :=
  if memoryServiceMethods.contains ("store".data) then Except.ok ()
  else Except.error PyExn.attributeError

/-- The snippet text `content[:150] + ('...' if len(content) > 150 else '')`. -/
def snippetOf (content : PyStr) : PyStr :=
  content.take 150 ++ (if content.length > 150 then "...".data else [])

/-- `Memory.save` snippet logic (models.py): generate the snippet only when it
is blank and the content is truthy. -/
def applyMemorySave (m : Memory) : Memory :=
  if m.snippet.isEmpty && !m.content.isEmpty then
    { m with snippet := snippetOf m.content }
  else m

/-- `Memory.objects.create(...)`: a fresh row with version 1, run through the
`save` snippet logic; `freshId` models the generated uuid id. -/
def memoryCreateRow (ws freshId title content : PyStr) (tags : List PyStr)
    (metadata : List (PyStr × JVal)) (now : Nat) : Memory :=
  applyMemorySave
    { id := freshId, workspace_id := ws, title := title, content := content,
      snippet := [], tags := tags, metadata := metadata, version := 1,
      created_at := now }

/-- Output state of `auto_extract_and_save`: the database rows after the call
together with its returned value or escaped exception. -/
structure AutoExtractOut where
  db : List Memory
  result : Except PyExn (List Memory)
deriving Repr

/-- Inner state of the fact-saving loop of `auto_extract_and_save`. -/
structure LoopOut where
  db : List Memory
  fresh : List PyStr
  acc : Except PyExn (List Memory)
deriving Repr

/-- The per-fact loop of `auto_extract_and_save`: create a `Memory` row for
each fact, then index it via the (missing) `memory_service.store`. -/
def autoExtractLoop (conv_ws conv_id : PyStr) (model_used : Option PyStr)
    (importance : PyStr) (now : Nat) :
    List ExtractedFact → List Memory → List PyStr → List Memory → LoopOut
  | [], db, freshIds, acc => { db := db, fresh := freshIds, acc := .ok acc }
  | f :: fs, db, freshIds, acc =>
    let tags := generate_tags f.text
    let importance_score := calculate_importance_score f.text
    let title := f.text.take 50 ++ (if f.text.length > 50 then "...".data else [])
    let m := memoryCreateRow conv_ws (freshIds.headD []) title f.text tags
      [ ("source".data, JVal.s ("user".data))
      , ("auto_extracted".data, JVal.b true)
      , ("importance".data, JVal.s importance)
      , ("importance_score".data, JVal.q importance_score)
      , ("extraction_type".data, JVal.s f.type)
      , ("model_used".data, match model_used with | some v => JVal.s v | none => JVal.null)
      , ("conversation_id".data, JVal.s conv_id) ] now
    let db := db ++ [m]
    match memoryServiceCallStore with
    | .error e => { db := db, fresh := freshIds.tail, acc := .error e }
    | .ok _ =>
      autoExtractLoop conv_ws conv_id model_used importance now fs db
        freshIds.tail (acc ++ [m])

/-- `auto_extract_and_save` of `memory_extractor.py`: classify, extract facts
from the user message, persist each fact, and additionally persist the whole
exchange when the importance is high.  Every persisted row is followed by a
`memory_service.store` call. -/
def auto_extract_and_save (db : List Memory) (conv_ws conv_id : PyStr)
    (user_message llm_reply : PyStr) (model_used : Option PyStr)
    (freshIds : List PyStr) (now : Nat) : AutoExtractOut :=
  let sp := should_save_memory user_message llm_reply
  if !sp.1 then { db := db, result := .ok [] }
  else
    let user_facts := extract_facts user_message
    match autoExtractLoop conv_ws conv_id model_used sp.2 now user_facts db freshIds [] with
    | { db := db1, fresh := _, acc := .error e } => { db := db1, result := .error e }
    | { db := db1, fresh := fresh1, acc := .ok created } =>
      if sp.2 = "high".data then
        let tags := generate_tags (user_message ++ " ".data ++ llm_reply)
        let exchange_text :=
          "User: ".data ++ user_message ++ "\n\nAssistant: ".data ++ llm_reply
        let title :=
          if user_message.length > 40 then
            "Important: ".data ++ user_message.take 40 ++ "...".data
          else "Important: ".data ++ user_message
        let m := memoryCreateRow conv_ws (fresh1.headD []) title exchange_text
          (tags ++ ["full-exchange".data, "high-importance".data])
          [ ("source".data, JVal.s ("exchange".data))
          , ("auto_extracted".data, JVal.b true)
          , ("importance".data, JVal.s sp.2)
          , ("model_used".data, match model_used with | some v => JVal.s v | none => JVal.null)
          , ("conversation_id".data, JVal.s conv_id) ] now
        let db2 := db1 ++ [m]
        match memoryServiceCallStore with
        | .error e => { db := db2, result := .error e }
        | .ok _ => { db := db2, result := .ok (created ++ [m]) }
      else { db := db1, result := .ok created }

/-- A view's HTTP outcome. -/
inductive ViewResp where
  | ok (code : Nat)
  | fail (code : Nat) (err : PyStr)
deriving DecidableEq, Repr

/-- The validated payload of `MemoryCreateSerializer`. -/
structure MemoryCreateReq where
  title : PyStr
  content : PyStr
  tags : List PyStr
  metadata : List (PyStr × JVal)
deriving DecidableEq, Repr

/-- `MemoryCreateSerializer` validity: required non-blank title (max length
255) and non-blank content. -/
def memoryCreateValid (r : MemoryCreateReq) : Bool :=
  !r.title.isEmpty && r.title.length ≤ 255 && !r.content.isEmpty

/-- Output of the memory-creation view: database rows and response or
escaped exception. -/
structure ViewOut where
  db : List Memory
  resp : Except PyExn ViewResp
deriving Repr

/-- The POST branch of `workspace_memories_view` (views_memory.py): access
checks, serializer validation, `Memory.objects.create`, then the failing
`memory_service.store` indexing call; only `Workspace.DoesNotExist` is
caught, so the `AttributeError` escapes. -/
def workspace_memories_post (db : List Memory) (wsExists is_owner is_member : Bool)
    (workspace_id : PyStr) (req : MemoryCreateReq) (freshId : PyStr) (now : Nat) :
    ViewOut :=
  if !wsExists then
    { db := db, resp := .ok (.fail 404 ("Workspace not found".data)) }
  else if !(is_owner || is_member) then
    { db := db, resp := .ok (.fail 403 ("Access denied".data)) }
  else if !(memoryCreateValid req) then
    { db := db, resp := .ok (.fail 400 ("invalid".data)) }
  else
    let memory := memoryCreateRow workspace_id freshId req.title req.content
      req.tags req.metadata now
    let db := db ++ [memory]
    match memoryServiceCallStore with
    | .error e => { db := db, resp := .error e }
    | .ok _ => { db := db, resp := .ok (.ok 201) }

/-- The validated payload of the PUT branch of `memory_detail_view`. -/
structure MemoryPutReq where
  title : Option PyStr
  content : Option PyStr
  tags : Option (List PyStr)
  metadata : Option (List (PyStr × JVal))
deriving DecidableEq, Repr

/-- Output of the memory-update view: database rows, the in-memory model
object at exit, and response or escaped exception. -/
structure PutOut where
  db : List Memory
  localMem : Option Memory
  resp : Except PyExn ViewResp
deriving Repr

/-- `memory.save()` on an existing row: replace it by primary key. -/
def dbReplace (db : List Memory) (m : Memory) : List Memory :=
  db.map (fun x => if x.id = m.id then m else x)

/-- The tail of the PUT branch after the content step: apply tags and
metadata, bump the version on every update, and save. -/
def memoryPutFinish (db : List Memory) (memory : Memory) (req : MemoryPutReq) :
    PutOut :=
  let memory :=
    match req.tags with
    | some t => { memory with tags := t }
    | none => memory
  let memory :=
    match req.metadata with
    | some t => { memory with metadata := t }
    | none => memory
  let memory := applyMemorySave { memory with version := memory.version + 1 }
  { db := dbReplace db memory, localMem := some memory, resp := .ok (.ok 200) }

/-- The PUT branch of `memory_detail_view` (views_memory.py): when the
content changes, the snippet is regenerated and `memory_service.store` is
called before the version bump and save; only `Memory.DoesNotExist` is
caught, so the `AttributeError` escapes. -/
def memory_detail_put (db : List Memory) (memory_id : PyStr)
    (is_owner is_member : Bool) (req : MemoryPutReq) : PutOut :=
  match db.find? (fun m => m.id = memory_id) with
  | none => { db := db, localMem := none,
              resp := .ok (.fail 404 ("Memory not found".data)) }
  | some memory0 =>
    if !(is_owner || is_member) then
      { db := db, localMem := some memory0,
        resp := .ok (.fail 403 ("Access denied".data)) }
    else
      let memory1 :=
        match req.title with
        | some t => { memory0 with title := t }
        | none => memory0
      match req.content with
      | some c =>
        let old_content := memory1.content
        let memory2 := { memory1 with content := c }
        if old_content ≠ memory2.content then
          let memory3 := { memory2 with snippet := snippetOf memory2.content }
          match memoryServiceCallStore with
          | .error e => { db := db, localMem := some memory3, resp := .error e }
          | .ok _ => memoryPutFinish db memory3 req
        else memoryPutFinish db memory2 req
      | none => memoryPutFinish db memory1 req


/-- A concrete valid creation payload for witness instantiations. -/
def reqCreate0 : MemoryCreateReq :=
  { title := "Team note".data, content := "hello world content".data,
    tags := [], metadata := [] }

/-- A concrete stored memory row for the update-path theorems. -/
def demoMemC : Memory :=
  { id := "memory-1".data, workspace_id := "w".data, title := "Old title".data,
    content := "old content here".data, snippet := "old content here".data,
    tags := [], metadata := [], version := 1, created_at := 3 }

/-- A concrete content-changing update payload. -/
def putReq0 : MemoryPutReq :=
  { title := none, content := some ("fresh new content".data),
    tags := none, metadata := none }

/-- A concrete user message that yields at least one extracted fact. -/
def msgFact : PyStr := "I am a software engineer working on Lean proofs".data


/-- A row of the `ChatMessage` model: the fields read by the embedded code. -/
structure ChatMsg where
  role : PyStr
  content : PyStr
  timestamp : Nat
deriving DecidableEq, Repr

/-- A row of the `ConversationMemory` junction model (models.py): it defines
exactly the fields `conversation`, `memory`, `injected_at` (plus the
implicit primary key and foreign-key id columns) — and no `is_active`. -/
structure ConversationMemoryLink where
  memory : Memory
  injected_at : Nat
deriving DecidableEq, Repr

/-- A row of the `Conversation` model with its related messages and
injected-memory links. -/
structure Conversation where
  id : PyStr
  workspace_id : PyStr
  model_id : PyStr
  links : List ConversationMemoryLink
  messages : List ChatMsg
deriving DecidableEq, Repr

/-- The queryable field names of the `ConversationMemory` model, as Django
resolves filter keywords against them. -/
def conversationMemoryFieldNames : List PyStr :=
  ["id", "conversation", "conversation_id", "memory", "memory_id",
   "injected_at"].map String.data

/-- The queryset call `conversation.injected_memory_links.filter(is_active=True)`
of `build_context`: Django resolves the keyword `is_active` against the
model's fields, finds none, and raises `FieldError`; the success branch is
unreachable because no such field exists to filter on. -/
def filterInjectedLinksActive (links : List ConversationMemoryLink) :
    Except PyExn (List ConversationMemoryLink) :=
  if conversationMemoryFieldNames.contains ("is_active".data) then Except.ok links
  else Except.error PyExn.fieldError

/-- The `order_by('-timestamp')` key: newer message first. -/
def timestampGE (a b : ChatMsg) : Prop := b.timestamp ≤ a.timestamp

instance : DecidableRel timestampGE :=
  fun a b => inferInstanceAs (Decidable (b.timestamp ≤ a.timestamp))

/-- The context bundle assembled by `build_context`. -/
structure BuiltContext where
  system_prompt : PyStr
  memories_text : PyStr
  history : List ChatMsg
  user_message : PyStr
deriving DecidableEq, Repr

/-- `build_context` of `llm_router.py`: system prompt, a memories block from
the active injected links (the filter that always fails), and the last 10
messages in chronological order.  No truncation or cap is applied to the
memory bodies. -/
def build_context (conversation : Conversation) (user_message : PyStr) :
    Except PyExn BuiltContext := do
  let system_prompt :=
    "You are a helpful AI assistant in the Chimera Protocol system.".data
  let injected_memories ← filterInjectedLinksActive conversation.links
  let memories_text :=
    if !injected_memories.isEmpty then
      "\n\n=== Injected Context ===\n".data
      ++ (injected_memories.foldl (fun acc link =>
            acc ++ "\n[".data ++ link.memory.title ++ "]\n".data
              ++ link.memory.content ++ "\n".data) [])
      ++ "\n=== End Context ===\n".data
    else []
  let history_messages :=
    ((List.insertionSort timestampGE conversation.messages).take 10).reverse
  Except.ok { system_prompt := system_prompt, memories_text := memories_text,
              history := history_messages, user_message := user_message }

/-- A chat message dict sent to a provider API. -/
structure PyChatMsg where
  role : PyStr
  content : PyStr
deriving DecidableEq, Repr

/-- A successful OpenAI-style chat-completions response. -/
structure OpenAIResp where
  content : PyStr
  model : PyStr
  usage : Option Nat
deriving Repr

/-- A successful Anthropic messages response. -/
structure AnthropicResp where
  text : PyStr
  model : PyStr
  input_tokens : Nat
  output_tokens : Nat
deriving Repr

/-- A Google generate-content response: its text (possibly empty) and the
optional `prompt_feedback` attribute. -/
structure GoogleResp where
  text : PyStr
  prompt_feedback : Option PyStr
deriving Repr

/-- The ambient Python environment of the adapters: which provider libraries
are importable, the process environment, and the transports, each of
which either returns a response or raises with a message. -/
structure PyEnv where
  openai_lib : Bool
  anthropic_lib : Bool
  google_lib : Bool
  getenv : PyStr → Option PyStr
  openaiNet : PyStr → List PyChatMsg → Except PyStr OpenAIResp
  anthropicNet : PyStr → PyStr → List PyChatMsg → Except PyStr AnthropicResp
  googleNet : PyStr → PyStr → Except PyStr GoogleResp
  deepseekNet : PyStr → List PyChatMsg → Except PyStr OpenAIResp

/-- Python `str(e)` on an exception value. -/
def pyStrOfExn : PyExn → PyStr
  | .importError => "ImportError".data
  | .attributeError => "AttributeError".data
  | .fieldError => "FieldError".data
  | .raised msg => msg

/-- The uniform result dict returned by every adapter. -/
structure LLMResult where
  reply : PyStr
  model_used : PyStr
  provider : PyStr
  tokens : Nat
  status : PyStr
  error : Option PyStr := none
  context_injected : Option Bool := none
  context_length : Option Nat := none
deriving DecidableEq, Repr

/-- An adapter call's outcome after its own `try/except`, together with
whether a transport call was attempted. -/
structure AdapterOut where
  result : LLMResult
  netCalled : Bool
deriving DecidableEq, Repr

/-- The message list built by `call_openai` (and, identically, by
`call_deepseek`): system prompt plus memories, history, then the user
message; or just the prompt when no context is given. -/
def openaiMessages (context : Option BuiltContext) (prompt : PyStr) :
    List PyChatMsg :=
  match context with
  | some context =>
    let system_content := context.system_prompt ++
      (if !context.memories_text.isEmpty then context.memories_text else [])
    ({ role := "system".data, content := system_content } : PyChatMsg) ::
      (context.history.map (fun msg =>
        ({ role := msg.role, content := msg.content } : PyChatMsg)))
      ++ [{ role := "user".data, content := context.user_message }]
  | none => [{ role := "user".data, content := prompt }]

/-- The `try:` block of `call_openai`: import, credential fallback and
check, message building, then the transport call.  The second component
records whether the transport was invoked. -/
def call_openai_body (env : PyEnv) (model prompt : PyStr) (api_key : Option PyStr)
    (context : Option BuiltContext) : Except PyExn LLMResult × Bool :=
  if !env.openai_lib then (Except.error PyExn.importError, false)
  else
    let api_key :=
      if pyTruthy api_key then api_key else env.getenv ("OPENAI_API_KEY".data)
    if !pyTruthy api_key then
      (Except.ok { reply := "[OpenAI ".data ++ model ++ "] No API key provided".data,
                   model_used := model, provider := "openai".data, tokens := 0,
                   status := "error".data, error := some ("No API key".data) },
       false)
    else
      let messages := openaiMessages context prompt
      match env.openaiNet model messages with
      | .error msg => (Except.error (PyExn.raised msg), true)
      | .ok resp =>
        (Except.ok { reply := resp.content, model_used := resp.model,
                     provider := "openai".data, tokens := resp.usage.getD 0,
                     status := "success".data }, true)

/-- `call_openai` of `llm_router.py` with its `except ImportError` and
`except Exception` clauses: every failure becomes a result value. -/
def call_openai (env : PyEnv) (model prompt : PyStr) (api_key : Option PyStr)
    (context : Option BuiltContext) : AdapterOut :=
  match call_openai_body env model prompt api_key context with
  | (.ok r, net) => { result := r, netCalled := net }
  | (.error PyExn.importError, net) =>
    { result := { reply := "[OpenAI ".data ++ model ++ "] openai library not installed".data,
                  model_used := model, provider := "openai".data, tokens := 0,
                  status := "error".data, error := some ("Library not installed".data) },
      netCalled := net }
  | (.error e, net) =>
    { result := { reply := "[OpenAI ".data ++ model ++ "] Error: ".data ++ pyStrOfExn e,
                  model_used := model, provider := "openai".data, tokens := 0,
                  status := "error".data, error := some (pyStrOfExn e) },
      netCalled := net }

/-- The `try:` block of `call_anthropic`: import, credential fallback and
check, system prompt and messages (history minus system-role messages),
then the transport call. -/
def call_anthropic_body (env : PyEnv) (model prompt : PyStr) (api_key : Option PyStr)
    (context : Option BuiltContext) : Except PyExn LLMResult × Bool :=
  if !env.anthropic_lib then (Except.error PyExn.importError, false)
  else
    let api_key :=
      if pyTruthy api_key then api_key else env.getenv ("ANTHROPIC_API_KEY".data)
    if !pyTruthy api_key then
      (Except.ok { reply := "[Anthropic ".data ++ model ++ "] No API key provided".data,
                   model_used := model, provider := "anthropic".data, tokens := 0,
                   status := "error".data, error := some ("No API key".data) },
       false)
    else
      let system_content := "You are a helpful AI assistant.".data
      let (system_content, messages) :=
        match context with
        | some context =>
          let system_content := context.system_prompt ++
            (if !context.memories_text.isEmpty then context.memories_text else [])
          (system_content,
           ((context.history.filter (fun msg => !(msg.role = "system".data))).map
             (fun msg => ({ role := msg.role, content := msg.content } : PyChatMsg)))
           ++ [{ role := "user".data, content := context.user_message }])
        | none => (system_content, [{ role := "user".data, content := prompt }])
      match env.anthropicNet model system_content messages with
      | .error msg => (Except.error (PyExn.raised msg), true)
      | .ok resp =>
        (Except.ok { reply := resp.text, model_used := resp.model,
                     provider := "anthropic".data,
                     tokens := resp.input_tokens + resp.output_tokens,
                     status := "success".data }, true)

/-- `call_anthropic` of `llm_router.py` with its exception clauses. -/
def call_anthropic (env : PyEnv) (model prompt : PyStr) (api_key : Option PyStr)
    (context : Option BuiltContext) : AdapterOut :=
  match call_anthropic_body env model prompt api_key context with
  | (.ok r, net) => { result := r, netCalled := net }
  | (.error PyExn.importError, net) =>
    { result := { reply := "[Anthropic ".data ++ model ++ "] anthropic library not installed".data,
                  model_used := model, provider := "anthropic".data, tokens := 0,
                  status := "error".data, error := some ("Library not installed".data) },
      netCalled := net }
  | (.error e, net) =>
    { result := { reply := "[Anthropic ".data ++ model ++ "] Error: ".data ++ pyStrOfExn e,
                  model_used := model, provider := "anthropic".data, tokens := 0,
                  status := "error".data, error := some (pyStrOfExn e) },
      netCalled := net }

/-- The flat prompt built by `call_google` from the context. -/
def googleFullPrompt (context : Option BuiltContext) (prompt : PyStr) : PyStr :=
  match context with
  | some context =>
    let full := context.system_prompt
    let full := full ++
      (if !context.memories_text.isEmpty then "\n".data ++ context.memories_text
       else [])
    let full := full ++
      (if !context.history.isEmpty then
        "\n\n=== Conversation History ===\n".data ++
        (context.history.foldl (fun acc msg =>
          acc ++ msg.role ++ ": ".data ++ msg.content ++ "\n".data) [])
       else [])
    full ++ "\n\nUser: ".data ++ context.user_message
  | none => prompt

/-- The `try:` block of `call_google`: import, credential fallback and check,
prompt building, transport call, then the blocked-response branches. -/
def call_google_body (env : PyEnv) (model prompt : PyStr) (api_key : Option PyStr)
    (context : Option BuiltContext) : Except PyExn LLMResult × Bool :=
  if !env.google_lib then (Except.error PyExn.importError, false)
  else
    let api_key :=
      if pyTruthy api_key then api_key else env.getenv ("GOOGLE_AI_API_KEY".data)
    if !pyTruthy api_key then
      (Except.ok { reply := "[Google ".data ++ model ++ "] No API key provided".data,
                   model_used := model, provider := "google".data, tokens := 0,
                   status := "error".data, error := some ("No API key".data) },
       false)
    else
      let full_prompt := googleFullPrompt context prompt
      match env.googleNet model full_prompt with
      | .error msg => (Except.error (PyExn.raised msg), true)
      | .ok resp =>
        if resp.text.isEmpty then
          match resp.prompt_feedback with
          | some feedback =>
            (Except.ok { reply := "[Google ".data ++ model ++
                           "] Content was blocked by safety filters: ".data ++ feedback,
                         model_used := model, provider := "google".data, tokens := 0,
                         status := "error".data,
                         error := some ("Content blocked by safety filters".data) },
             true)
          | none =>
            (Except.ok { reply := "[Google ".data ++ model ++ "] No response generated".data,
                         model_used := model, provider := "google".data, tokens := 0,
                         status := "error".data,
                         error := some ("No response generated".data) },
             true)
        else
          (Except.ok { reply := resp.text, model_used := model,
                       provider := "google".data, tokens := 0,
                       status := "success".data }, true)

/-- `call_google` of `llm_router.py` with its exception clauses. -/
def call_google (env : PyEnv) (model prompt : PyStr) (api_key : Option PyStr)
    (context : Option BuiltContext) : AdapterOut :=
  match call_google_body env model prompt api_key context with
  | (.ok r, net) => { result := r, netCalled := net }
  | (.error PyExn.importError, net) =>
    { result := { reply := "[Google ".data ++ model ++ "] google-generativeai library not installed".data,
                  model_used := model, provider := "google".data, tokens := 0,
                  status := "error".data, error := some ("Library not installed".data) },
      netCalled := net }
  | (.error e, net) =>
    { result := { reply := "[Google ".data ++ model ++ "] Error: ".data ++ pyStrOfExn e,
                  model_used := model, provider := "google".data, tokens := 0,
                  status := "error".data, error := some (pyStrOfExn e) },
      netCalled := net }

/-- The `try:` block of `call_deepseek` (OpenAI-compatible client with a
custom base URL; its message building is identical to `call_openai`). -/
def call_deepseek_body (env : PyEnv) (model prompt : PyStr) (api_key : Option PyStr)
    (context : Option BuiltContext) : Except PyExn LLMResult × Bool :=
  if !env.openai_lib then (Except.error PyExn.importError, false)
  else
    let api_key :=
      if pyTruthy api_key then api_key else env.getenv ("DEEPSEEK_API_KEY".data)
    if !pyTruthy api_key then
      (Except.ok { reply := "[DeepSeek ".data ++ model ++ "] No API key provided".data,
                   model_used := model, provider := "deepseek".data, tokens := 0,
                   status := "error".data, error := some ("No API key".data) },
       false)
    else
      let messages := openaiMessages context prompt
      match env.deepseekNet model messages with
      | .error msg => (Except.error (PyExn.raised msg), true)
      | .ok resp =>
        (Except.ok { reply := resp.content, model_used := resp.model,
                     provider := "deepseek".data, tokens := resp.usage.getD 0,
                     status := "success".data }, true)

/-- `call_deepseek` of `llm_router.py` with its exception clauses. -/
def call_deepseek (env : PyEnv) (model prompt : PyStr) (api_key : Option PyStr)
    (context : Option BuiltContext) : AdapterOut :=
  match call_deepseek_body env model prompt api_key context with
  | (.ok r, net) => { result := r, netCalled := net }
  | (.error PyExn.importError, net) =>
    { result := { reply := "[DeepSeek ".data ++ model ++ "] openai library not installed".data,
                  model_used := model, provider := "deepseek".data, tokens := 0,
                  status := "error".data, error := some ("Library not installed".data) },
      netCalled := net }
  | (.error e, net) =>
    { result := { reply := "[DeepSeek ".data ++ model ++ "] Error: ".data ++ pyStrOfExn e,
                  model_used := model, provider := "deepseek".data, tokens := 0,
                  status := "error".data, error := some (pyStrOfExn e) },
      netCalled := net }

/-- `call_groq`: placeholder demo reply, never touches the network. -/
def call_groq (model prompt : PyStr) : LLMResult :=
  { reply := "[Groq ".data ++ model ++
      "] This is a placeholder response. Integrate Groq API for production.".data,
    model_used := model, provider := "groq".data, tokens := 0,
    status := "demo_mode".data }

/-- `call_local`: placeholder reply with status success. -/
def call_local (model prompt : PyStr) : LLMResult :=
  { reply := "[Local ".data ++ model ++
      "] This is a placeholder response. Integrate local model server for production.".data,
    model_used := model, provider := "local".data, tokens := 0,
    status := "success".data }

/-- Decimal rendering of a number, as Python string interpolation does. -/
def natToPyStr (n : Nat) : PyStr := (Nat.repr n).data

/-- The text before the first occurrence of `pat` in `s`
(Python `s.split(pat)[0]` for a non-empty separator). -/
def strBeforeFirst (s pat : PyStr) : PyStr :=
  match s with
  | [] => []
  | c :: cs => if pat.isPrefixOf (c :: cs) then [] else c :: strBeforeFirst cs pat

/-- `call_echo` of `llm_router.py`: deterministic demo reply reporting
whether context was injected. -/
def call_echo (model full_prompt original_prompt : PyStr) : LLMResult :=
  let has_context := strContains full_prompt ("User:".data)
  let context_part := pyStrip (strBeforeFirst full_prompt ("User:".data))
  let reply :=
    if has_context then
      "[Echo Mode - ".data ++ model ++ "]\n\n✅ Context Received (".data
        ++ natToPyStr context_part.length
        ++ " chars)\n\n📝 Your message: ".data ++ original_prompt
        ++ "\n\n🤖 Response: I received your message with injected context. In production, this would be processed by ".data
        ++ model ++ ".".data
    else
      "[Echo Mode - ".data ++ model ++ "]\n\n📝 Your message: ".data
        ++ original_prompt
        ++ "\n\n🤖 Response: I received your message. In production, this would be processed by ".data
        ++ model ++ ".".data
  { reply := reply, model_used := model, provider := "echo".data,
    tokens := (pySplitWs full_prompt).length, status := "success".data,
    context_injected := some has_context,
    context_length := some (if has_context then context_part.length else 0) }

/-- `call_llm_with_conversation` of `llm_router.py`: build the context (the
step that raises), resolve the provider and model name, and route to the
matching adapter. -/
def call_llm_with_conversation (env : PyEnv) (conversation : Conversation)
    (user_message : PyStr) (api_key : Option PyStr) : Except PyExn LLMResult := do
  let context ← build_context conversation user_message
  let model_id := conversation.model_id
  let provider := get_provider model_id
  let model_name := pyReplace model_id ("model-".data) []
  let model_name := normalize_model_name model_name provider
  if provider = "openai".data then
    Except.ok (call_openai env model_name [] api_key (some context)).result
  else if provider = "anthropic".data then
    Except.ok (call_anthropic env model_name [] api_key (some context)).result
  else if provider = "google".data then
    Except.ok (call_google env model_name [] api_key (some context)).result
  else if provider = "deepseek".data then
    Except.ok (call_deepseek env model_name [] api_key (some context)).result
  else if provider = "groq".data then
    Except.ok (call_groq model_name user_message)
  else if provider = "local".data then
    Except.ok (call_local model_name user_message)
  else
    Except.ok (call_echo model_name user_message user_message)

/-- A memory body of 1500 identical characters, the claim's own instance. -/
def memContent1500 : PyStr := List.replicate 1500 'a'

/-- An injected-memory link to a 1500-character memory. -/
def mkInjectedMem (id : PyStr) : ConversationMemoryLink :=
  { memory := { id := id, workspace_id := "w".data, title := "T".data,
                content := memContent1500, snippet := [], tags := [],
                metadata := [], version := 1, created_at := 1 },
    injected_at := 1 }

/-- A conversation with 3 injected 1500-character memories and 12 history
messages — the spec's BuildContext scenario. -/
def demoConv1 : Conversation :=
  { id := "c1".data, workspace_id := "w".data, model_id := "gpt-4".data,
    links := [mkInjectedMem ("mA".data), mkInjectedMem ("mB".data),
              mkInjectedMem ("mC".data)],
    messages := (List.range 12).map (fun i =>
      { role := "user".data, content := "m".data, timestamp := i }) }

/-- A concrete environment: libraries importable, no environment variables
set, every transport raising if reached. -/
def env0 : PyEnv :=
  { openai_lib := true, anthropic_lib := true, google_lib := true,
    getenv := fun _ => none,
    openaiNet := fun _ _ => Except.error ("no network".data),
    anthropicNet := fun _ _ _ => Except.error ("no network".data),
    googleNet := fun _ _ => Except.error ("no network".data),
    deepseekNet := fun _ _ => Except.error ("no network".data) }

-- ===== THEOREMS =====

theorem dictGet_mem_snd {t : List (PyStr × PyStr)} {k v : PyStr}
    (h : dictGet t k = some v) : v ∈ t.map Prod.snd := by
  induction t with
  | nil => simp [dictGet] at h
  | cons hd tl ih =>
    obtain ⟨key, val⟩ := hd
    by_cases hk : key = k
    · simp [dictGet, hk] at h
      simp [h]
    · simp [dictGet, hk] at h
      simpa using Or.inr (ih h)

theorem findProviderNormalized_mem_snd {t : List (PyStr × PyStr)} {x v : PyStr}
    (h : findProviderNormalized t x = some v) : v ∈ t.map Prod.snd := by
  induction t with
  | nil => simp [findProviderNormalized] at h
  | cons hd tl ih =>
    obtain ⟨key, prov⟩ := hd
    by_cases hk : x = pyLower (stripPunctuation key)
    · simp [findProviderNormalized, hk] at h
      simp [h]
    · simp [findProviderNormalized, hk] at h
      simpa using Or.inr (ih h)

/-- C10: provider resolution is total — for every model identifier
`get_provider` returns one of the known provider tags (it cannot fail), and
the unmatched identifier `totally-unknown-model-xyz` falls back to the
deterministic stub provider `echo`. -/
theorem get_provider_total_echo_fallback :
    (∀ name : PyStr, get_provider name ∈ providerValues) ∧
    get_provider ("totally-unknown-model-xyz".data) = "echo".data := by
  constructor
  · intro name
    have hsub : ∀ v ∈ SUPPORTED_MODELS.map Prod.snd, v ∈ providerValues := by decide
    dsimp only [get_provider]
    split
    · next p h1 => exact hsub _ (dictGet_mem_snd h1)
    · split
      · next p h2 => exact hsub _ (findProviderNormalized_mem_snd h2)
      · decide
  · decide

/-- C4 counterexample: resolution is not invariant under punctuation
formatting — `resolve("gpt.4")` does not yield the same (provider,
canonicalModel) pair as `resolve("gpt-4")`, because `normalize_model_name`
has no punctuation-normalised lookup and returns `gpt.4` unchanged. -/
theorem resolveModel_punctuation_counterexample :
    resolveModel ("gpt.4".data) ≠ resolveModel ("gpt-4".data) := by decide

/-- C4 amended: the provider component of resolution is case- and
punctuation-insensitive on these inputs, and resolution of `GPT-4` and
`gpt-4` yields the identical pair (openai, gpt-4); but `gpt.4`, while
resolving to the same provider, keeps its own spelling as the canonical
model name. -/
theorem resolveModel_case_punctuation_amended :
    resolveModel ("GPT-4".data) = ("openai".data, "gpt-4".data) ∧
    resolveModel ("gpt-4".data) = ("openai".data, "gpt-4".data) ∧
    (resolveModel ("gpt.4".data)).1 = "openai".data ∧
    (resolveModel ("gpt.4".data)).2 = "gpt.4".data := by
  refine ⟨by decide, by decide, by decide, by decide⟩


theorem calculate_score_le_one (Q : Finset PyStr) (m : Memory) :
    MemoryService_calculate_score Q m ≤ 1 := by
  dsimp only [MemoryService_calculate_score]
  split_ifs with h1 h2
  · norm_num
  · norm_num
  · exact min_le_right _ _

theorem calculate_score_nonneg (Q : Finset PyStr) (m : Memory) :
    0 ≤ MemoryService_calculate_score Q m := by
  dsimp only [MemoryService_calculate_score]
  split_ifs with h1 h2
  · norm_num
  · norm_num
  · refine le_min ?_ (by norm_num)
    have hring : (((Q ∩ MemoryService_tokenize (pyLower m.title)).card : ℚ) * 2 +
        (((Q ∩ memoryTokens m).card : ℚ) -
         ((Q ∩ MemoryService_tokenize (pyLower m.title)).card : ℚ))) =
        ((Q ∩ MemoryService_tokenize (pyLower m.title)).card : ℚ) +
        ((Q ∩ memoryTokens m).card : ℚ) := by ring
    rw [hring]
    positivity

theorem pairwise_orderedInsert_scoreThenRecency (a : Memory × ℚ) :
    ∀ l : List (Memory × ℚ), l.Pairwise scoreThenRecency →
      (∀ b ∈ l, b.1.created_at ≤ a.1.created_at) →
      (List.orderedInsert scoreGE a l).Pairwise scoreThenRecency := by
  intro l
  induction l with
  | nil =>
    intro _ _
    simp [List.pairwise_cons]
  | cons b bs ih =>
    intro hl hc
    simp only [List.orderedInsert]
    split_ifs with hab
    · refine List.pairwise_cons.mpr ⟨?_, hl⟩
      intro c hcmem
      have hab2 : b.2 ≤ a.2 := hab
      have hbc2 : c.2 ≤ b.2 := by
        rcases List.mem_cons.mp hcmem with rfl | hcbs
        · exact le_refl _
        · rcases (List.pairwise_cons.mp hl).1 c hcbs with h | h
          · exact le_of_lt h
          · exact le_of_eq h.1.symm
      rcases lt_or_eq_of_le (le_trans hbc2 hab2) with h | h
      · exact Or.inl h
      · exact Or.inr ⟨h.symm, hc c hcmem⟩
    · have hb2 : a.2 < b.2 := lt_of_not_le hab
      refine List.pairwise_cons.mpr
        ⟨?_, ih (List.pairwise_cons.mp hl).2
              (fun x hx => hc x (List.mem_cons_of_mem _ hx))⟩
      intro c hcmem
      rcases (List.mem_orderedInsert scoreGE).mp hcmem with rfl | hcbs
      · exact Or.inl hb2
      · exact (List.pairwise_cons.mp hl).1 c hcbs

theorem pairwise_insertionSort_scoreThenRecency :
    ∀ l : List (Memory × ℚ),
      l.Pairwise (fun a b => b.1.created_at ≤ a.1.created_at) →
      (List.insertionSort scoreGE l).Pairwise scoreThenRecency := by
  intro l
  induction l with
  | nil => intro _; simp
  | cons a l ih =>
    intro h
    simp only [List.insertionSort]
    apply pairwise_orderedInsert_scoreThenRecency
    · exact ih (List.pairwise_cons.mp h).2
    · intro b hb
      exact (List.pairwise_cons.mp h).1 b ((List.mem_insertionSort scoreGE).mp hb)

/-- C3: for every database, query string and `k`, `search` returns at most
`k` results, every returned result has a score in (0, 1], and the list is
sorted by descending score with equal scores ordered by recency, newest
first. -/
theorem memoryService_search_spec (db : List Memory) (q : PyStr) (k : Nat)
    (ws : Option PyStr) :
    (MemoryService_search db q k ws).length ≤ k ∧
    (MemoryService_search db q k ws).Forall (fun r => 0 < r.score ∧ r.score ≤ 1) ∧
    (MemoryService_search db q k ws).Pairwise resultOrder := by
  unfold MemoryService_search
  dsimp only
  split
  · exact ⟨by simp, by simp, by simp⟩
  · split
    · exact ⟨by simp, by simp, by simp⟩
    · refine ⟨?_, ?_, ?_⟩
      · rw [List.length_map, List.length_take]
        exact min_le_left _ _
      · refine List.forall_iff_forall_mem.mpr ?_
        intro r hr
        obtain ⟨p, hp, rfl⟩ := List.mem_map.mp hr
        have hps : p ∈ List.insertionSort scoreGE _ := List.mem_of_mem_take hp
        have hpf := (List.mem_insertionSort scoreGE).mp hps
        have hmem := List.mem_filter.mp hpf
        have hpos : (0 : ℚ) < p.2 := of_decide_eq_true hmem.2
        obtain ⟨m, _, rfl⟩ := List.mem_map.mp hmem.1
        exact ⟨hpos, calculate_score_le_one _ m⟩
      · refine List.pairwise_map.mpr ?_
        have h0 : List.Pairwise createdGE
            ((List.insertionSort createdGE (searchQuerySet db ws)).take 100) :=
          List.Pairwise.sublist (List.take_sublist _ _)
            (List.sorted_insertionSort createdGE _)
        have h2 : List.Pairwise (fun a b : Memory × ℚ => b.1.created_at ≤ a.1.created_at)
            (((List.insertionSort createdGE (searchQuerySet db ws)).take 100).map
              (fun m => (m, MemoryService_calculate_score (MemoryService_tokenize (pyLower q)) m))) :=
          List.pairwise_map.mpr (h0.imp (fun h => h))
        have h3 : List.Pairwise (fun a b : Memory × ℚ => b.1.created_at ≤ a.1.created_at)
            ((((List.insertionSort createdGE (searchQuerySet db ws)).take 100).map
              (fun m => (m, MemoryService_calculate_score (MemoryService_tokenize (pyLower q)) m))).filter
                (fun p => decide (0 < p.2))) :=
          List.Pairwise.sublist (List.filter_sublist _) h2
        have h4 := pairwise_insertionSort_scoreThenRecency _ h3
        have h5 := List.Pairwise.sublist (List.take_sublist k _) h4
        exact h5.imp (fun h => h)

/-- C7: the relevance score is 0 exactly when the query token set and the
memory's tokenised title+content text share no tokens; it always lies in
[0, 1]; and on any overlap it equals `(2*titleMatches + contentMatches) /
|queryTokens|` capped at 1. -/
theorem calculate_score_spec (Q : Finset PyStr) (m : Memory) :
    (MemoryService_calculate_score Q m = 0 ↔ Q ∩ memoryTokens m = ∅) ∧
    (0 ≤ MemoryService_calculate_score Q m ∧ MemoryService_calculate_score Q m ≤ 1) ∧
    ((Q ∩ memoryTokens m).Nonempty →
      MemoryService_calculate_score Q m =
        min ((((Q ∩ MemoryService_tokenize (pyLower m.title)).card : ℚ) * 2 +
              (((Q ∩ memoryTokens m).card : ℚ) -
               ((Q ∩ MemoryService_tokenize (pyLower m.title)).card : ℚ))) /
             (Q.card : ℚ)) 1) := by
  refine ⟨?_, ⟨calculate_score_nonneg Q m, calculate_score_le_one Q m⟩, ?_⟩
  · dsimp only [MemoryService_calculate_score]
    split_ifs with h1 h2
    · simp [h1]
    · simp [h2]
    · have hiQ : (Q ∩ memoryTokens m).Nonempty := Finset.nonempty_iff_ne_empty.mpr h2
      have hQne : Q.Nonempty := by
        obtain ⟨x, hx⟩ := hiQ
        exact ⟨x, (Finset.mem_inter.mp hx).1⟩
      have hring : (((Q ∩ MemoryService_tokenize (pyLower m.title)).card : ℚ) * 2 +
          (((Q ∩ memoryTokens m).card : ℚ) -
           ((Q ∩ MemoryService_tokenize (pyLower m.title)).card : ℚ))) =
          ((Q ∩ MemoryService_tokenize (pyLower m.title)).card : ℚ) +
          ((Q ∩ memoryTokens m).card : ℚ) := by ring
      have hnum : (0 : ℚ) <
          (((Q ∩ MemoryService_tokenize (pyLower m.title)).card : ℚ) * 2 +
          (((Q ∩ memoryTokens m).card : ℚ) -
           ((Q ∩ MemoryService_tokenize (pyLower m.title)).card : ℚ))) := by
        rw [hring]
        have hi : (0 : ℚ) < ((Q ∩ memoryTokens m).card : ℚ) := by
          exact_mod_cast Finset.card_pos.mpr hiQ
        have ht : (0 : ℚ) ≤ ((Q ∩ MemoryService_tokenize (pyLower m.title)).card : ℚ) := by
          positivity
        linarith
      have hden : (0 : ℚ) < (Q.card : ℚ) := by
        exact_mod_cast Finset.card_pos.mpr hQne
      have hpos := lt_min (div_pos hnum hden) (one_pos (α := ℚ))
      constructor
      · intro h0
        exact absurd h0 (ne_of_gt hpos)
      · intro hR
        exact absurd hR h2
  · intro hne
    dsimp only [MemoryService_calculate_score]
    split_ifs with h1 h2
    · rw [h1] at hne
      simp at hne
    · exact absurd h2 (Finset.nonempty_iff_ne_empty.mp hne)
    · rfl

/-- Witness for C7 at a concrete query and memory: the overlap is nonempty
and the score equals the stated formula. -/
theorem calculate_score_spec_witness :
    (demoQuery ∩ memoryTokens demoMemA).Nonempty ∧
    MemoryService_calculate_score demoQuery demoMemA =
      min ((((demoQuery ∩ MemoryService_tokenize (pyLower demoMemA.title)).card : ℚ) * 2 +
            (((demoQuery ∩ memoryTokens demoMemA).card : ℚ) -
             ((demoQuery ∩ MemoryService_tokenize (pyLower demoMemA.title)).card : ℚ))) /
           (demoQuery.card : ℚ)) 1 :=
  ⟨Finset.card_pos.mp (by decide),
   (calculate_score_spec demoQuery demoMemA).2.2 (Finset.card_pos.mp (by decide))⟩


/-- C8: classification applies its rules in order with the first match
winning; shouldPersist holds exactly when the importance is not `none`; and
the importance is always one of none/low/medium/high; an explicit save-intent
keyword forces `high`; and `classify("hi")` yields `(false, none)` for every
reply. -/
theorem should_save_memory_spec (msg reply : PyStr) :
    ((should_save_memory msg reply).1 = true ↔
      (should_save_memory msg reply).2 ≠ "none".data) ∧
    (should_save_memory msg reply).2 ∈
      ["none".data, "low".data, "medium".data, "high".data] ∧
    (containsAny (pyLower msg) SAVE_KEYWORDS = true →
      should_save_memory msg reply = (true, "high".data)) ∧
    should_save_memory ("hi".data) reply = (false, "none".data) := by
  refine ⟨?_, ?_, ?_, ?_⟩
  · unfold should_save_memory
    split_ifs <;> decide
  · unfold should_save_memory
    split_ifs <;> decide
  · intro h
    unfold should_save_memory
    simp [h]
  · rfl

/-- Witness for C8 at a concrete message containing a save keyword. -/
theorem should_save_memory_spec_witness :
    containsAny (pyLower ("please remember this".data)) SAVE_KEYWORDS = true ∧
    should_save_memory ("please remember this".data) [] = (true, "high".data) :=
  ⟨by decide,
   (should_save_memory_spec ("please remember this".data) []).2.2.1 (by decide)⟩

/-- C5: every persisting path — the workspace memory-creation view, the
content-changing update view, and automatic extraction when it persists —
reaches the `memory_service.store` call, which raises `AttributeError`
because `MemoryService` defines no `store` method; the row has already been
created (creation paths) or the in-memory object already modified (update
path), and the operation never completes normally. -/
theorem memory_persist_paths_attribute_error :
    (∀ (db : List Memory) (ws_id : PyStr) (req : MemoryCreateReq)
        (freshId : PyStr) (now : Nat),
      memoryCreateValid req = true →
      (workspace_memories_post db true true false ws_id req freshId now).resp =
        Except.error PyExn.attributeError ∧
      (workspace_memories_post db true true false ws_id req freshId now).db.length =
        db.length + 1) ∧
    (∀ (db : List Memory) (memory_id : PyStr) (req : MemoryPutReq)
        (m : Memory) (c : PyStr),
      db.find? (fun x => x.id = memory_id) = some m →
      req.content = some c →
      c ≠ m.content →
      (memory_detail_put db memory_id true false req).resp =
        Except.error PyExn.attributeError ∧
      (memory_detail_put db memory_id true false req).db = db ∧
      ((memory_detail_put db memory_id true false req).localMem.map Memory.content) =
        some c) ∧
    (∀ (db : List Memory) (ws cid msg reply : PyStr) (mu : Option PyStr)
        (freshIds : List PyStr) (now : Nat),
      (should_save_memory msg reply).1 = true →
      (extract_facts msg ≠ [] ∨ (should_save_memory msg reply).2 = "high".data) →
      (auto_extract_and_save db ws cid msg reply mu freshIds now).result =
        Except.error PyExn.attributeError ∧
      (auto_extract_and_save db ws cid msg reply mu freshIds now).db.length =
        db.length + 1) := by
  have hstore : memoryServiceCallStore = Except.error PyExn.attributeError := rfl
  refine ⟨?_, ?_, ?_⟩
  · intro db ws_id req freshId now hvalid
    unfold workspace_memories_post
    simp [hvalid, hstore]
  · intro db memory_id req m c hfind hcontent hne
    unfold memory_detail_put
    rw [hfind, hcontent]
    cases req.title with
    | none =>
      simp only []
      rw [if_neg (by simp)]
      rw [if_pos (by simpa using hne.symm)]
      rw [hstore]
      simp
    | some t =>
      simp only []
      rw [if_neg (by simp)]
      rw [if_pos (by simpa using hne.symm)]
      rw [hstore]
      simp
  · intro db ws cid msg reply mu freshIds now hs hd
    rcases hfacts : extract_facts msg with _ | ⟨f, fs⟩
    · rcases hd with hnonempty | hhigh
      · exact absurd hfacts hnonempty
      · unfold auto_extract_and_save
        simp [hs, hfacts, autoExtractLoop, hhigh, hstore, List.length_append]
    · unfold auto_extract_and_save
      simp [hs, hfacts, autoExtractLoop, hstore, List.length_append]

/-- Witness for C5: all three persist paths at concrete inputs raise
`AttributeError` with exactly one row created (creation paths) or the
object modified and the database untouched (update path). -/
theorem memory_persist_paths_attribute_error_witness :
    ((workspace_memories_post [] true true false ("w1".data) reqCreate0
        ("memory-a".data) 5).resp = Except.error PyExn.attributeError ∧
     (workspace_memories_post [] true true false ("w1".data) reqCreate0
        ("memory-a".data) 5).db.length = List.length ([] : List Memory) + 1) ∧
    ((memory_detail_put [demoMemC] ("memory-1".data) true false putReq0).resp =
        Except.error PyExn.attributeError ∧
     (memory_detail_put [demoMemC] ("memory-1".data) true false putReq0).db =
        [demoMemC] ∧
     ((memory_detail_put [demoMemC] ("memory-1".data) true false
        putReq0).localMem.map Memory.content) = some ("fresh new content".data)) ∧
    ((auto_extract_and_save [] ("w".data) ("c1".data) msgFact ("ok".data) none
        [("memory-b".data)] 7).result = Except.error PyExn.attributeError ∧
     (auto_extract_and_save [] ("w".data) ("c1".data) msgFact ("ok".data) none
        [("memory-b".data)] 7).db.length = List.length ([] : List Memory) + 1) :=
  ⟨memory_persist_paths_attribute_error.1 [] ("w1".data) reqCreate0
      ("memory-a".data) 5 (by decide),
   memory_persist_paths_attribute_error.2.1 [demoMemC] ("memory-1".data) putReq0
      demoMemC ("fresh new content".data) (by decide) rfl (by decide),
   memory_persist_paths_attribute_error.2.2 [] ("w".data) ("c1".data) msgFact
      ("ok".data) none [("memory-b".data)] 7 (by decide) (Or.inl (by decide))⟩

/-- C9 (observed code behaviour at the failing input): a content-changing
update through the PUT view raises `AttributeError` at the
`memory_service.store` indexing step before `version += 1` and `save()` run,
so the stored version does not increase (the database row is unchanged) and
even the in-memory object keeps version 1. -/
theorem memory_update_version_never_bumped :
    (memory_detail_put [demoMemC] ("memory-1".data) true false putReq0).resp =
      Except.error PyExn.attributeError ∧
    (memory_detail_put [demoMemC] ("memory-1".data) true false putReq0).db =
      [demoMemC] ∧
    ((memory_detail_put [demoMemC] ("memory-1".data) true false
        putReq0).localMem.map Memory.version) = some 1 ∧
    demoMemC.version = 1 :=
  ⟨rfl, rfl, rfl, rfl⟩

/-- C1 counterexample: at the claim's own instance — a conversation with 3
injected memories of 1500 characters each — `build_context` produces no
bundle at all, let alone truncated memory blocks: its
`filter(is_active=True)` call fails with `FieldError` because the link
model defines no `is_active` field. -/
theorem build_context_counterexample :
    build_context demoConv1 ("hello".data) = Except.error PyExn.fieldError ∧
    (build_context demoConv1 ("hello".data)).isOk = false :=
  ⟨rfl, rfl⟩

/-- C1 amended: for every conversation and user message, `build_context`
raises a `FieldError` (its injected-memory filter names the nonexistent
`is_active` field), so no context bundle is ever returned and no memory
truncation, truncation marker, memory cap or history cap is ever applied. -/
theorem build_context_always_fieldError (conversation : Conversation)
    (user_message : PyStr) :
    build_context conversation user_message = Except.error PyExn.fieldError := rfl

/-- C2 (observed code behaviour): for every environment, conversation,
message and credential, `call_llm_with_conversation` lets the `FieldError`
raised inside `build_context` escape across its boundary — it never returns
a status-carrying result value, contradicting the never-throws contract. -/
theorem call_llm_always_raises_fieldError (env : PyEnv)
    (conversation : Conversation) (user_message : PyStr)
    (api_key : Option PyStr) :
    call_llm_with_conversation env conversation user_message api_key =
      Except.error PyExn.fieldError := rfl

/-- C6: with the provider library importable and no credential available
(falsy credential argument and unset/empty environment variable), both the
OpenAI and the Anthropic adapters immediately return the failed result whose
error is the missing-key error, attempt no network call, and do not throw
(the adapter returns a plain value). -/
theorem adapters_no_credential_auth_error (env : PyEnv) (model prompt : PyStr)
    (api_key : Option PyStr) (context : Option BuiltContext) :
    (env.openai_lib = true → pyTruthy api_key = false →
      pyTruthy (env.getenv ("OPENAI_API_KEY".data)) = false →
      call_openai env model prompt api_key context =
        { result := { reply := "[OpenAI ".data ++ model ++ "] No API key provided".data,
                      model_used := model, provider := "openai".data, tokens := 0,
                      status := "error".data, error := some ("No API key".data) },
          netCalled := false }) ∧
    (env.anthropic_lib = true → pyTruthy api_key = false →
      pyTruthy (env.getenv ("ANTHROPIC_API_KEY".data)) = false →
      call_anthropic env model prompt api_key context =
        { result := { reply := "[Anthropic ".data ++ model ++ "] No API key provided".data,
                      model_used := model, provider := "anthropic".data, tokens := 0,
                      status := "error".data, error := some ("No API key".data) },
          netCalled := false }) := by
  constructor
  · intro hlib hkey henv
    unfold call_openai call_openai_body
    simp [hlib, hkey, henv]
  · intro hlib hkey henv
    unfold call_anthropic call_anthropic_body
    simp [hlib, hkey, henv]

/-- Witness for C6 at a concrete environment with importable libraries, no
environment variables and no credential argument. -/
theorem adapters_no_credential_auth_error_witness :
    env0.openai_lib = true ∧ pyTruthy (none : Option PyStr) = false ∧
    pyTruthy (env0.getenv ("OPENAI_API_KEY".data)) = false ∧
    call_openai env0 ("gpt-4".data) [] none none =
      { result := { reply := "[OpenAI ".data ++ ("gpt-4".data) ++ "] No API key provided".data,
                    model_used := "gpt-4".data, provider := "openai".data, tokens := 0,
                    status := "error".data, error := some ("No API key".data) },
        netCalled := false } ∧
    call_anthropic env0 ("claude-3-opus".data) [] none none =
      { result := { reply := "[Anthropic ".data ++ ("claude-3-opus".data) ++ "] No API key provided".data,
                    model_used := "claude-3-opus".data, provider := "anthropic".data, tokens := 0,
                    status := "error".data, error := some ("No API key".data) },
        netCalled := false } :=
  ⟨rfl, rfl, rfl,
   (adapters_no_credential_auth_error env0 ("gpt-4".data) [] none none).1 rfl rfl rfl,
   (adapters_no_credential_auth_error env0 ("claude-3-opus".data) [] none none).2 rfl rfl rfl⟩
